import Mathlib

/-!
Verification development for the dataset-generation script
`scripts/2d_data_generation.py` of the diffco repository.

The script is a thin orchestration layer: a static scene catalog
(`predefined_obstacles`), two procedural random rectangle-field
generators (the two `for` loops in `main`), a DOF-indexed link-length
table (`lengths`), and a single call to an external generation routine.

Numeric values are embedded as rationals (every literal in the source is
a decimal fraction, exactly representable).  The process-wide numpy
random stream is embedded as an explicit state of type `σ` together
with a seeding function and a draw function (`Rng`): `np.random.seed`
resets the state from the seed, `np.random.rand(2,)` draws a pair and
advances the state.  The external collaborators (`RevolutePlanarRobot`,
`generate_data_planar_manipulators`) are out of scope; the embedding
records the fully resolved argument bundle (`GenRequest`) that `main`
hands to them.
-/

/-- Size field of an obstacle descriptor: a scalar (circle radius) or a
2-vector (rectangle extents), mirroring the heterogeneous third tuple
component in the Python source. -/
inductive ObSize where
  | scalar (r : ℚ)
  | twoD (w h : ℚ)
deriving DecidableEq, Repr

/-- An obstacle descriptor tuple `(kind, position, size[, tag])` from the
source: shape kind string, 2-D position, size, and an optional integer
class tag (absent for untagged scenes). -/
structure Obstacle where
  kind : String
  pos : ℚ × ℚ
  size : ObSize
  tag : Option ℤ
deriving DecidableEq, Repr

/-- The static scene catalog `predefined_obstacles` of the source: a
dictionary from scene identifier to its ordered obstacle list.  Lookup
of an absent key is `none` (a Python `KeyError`). -/
def predefined_obstacles (name : String) : Option (List Obstacle) :=
  if name = "1rect_1circle" then some [
    ⟨"rect", (4, 3), .twoD 2 2, none⟩,
    ⟨"circle", (-4, -3), .scalar 1, none⟩]
  else if name = "3circle" then some [
    ⟨"circle", (0, 9/2), .scalar 1, none⟩,
    ⟨"circle", (-2, -3), .scalar 2, none⟩,
    ⟨"circle", (-2, 2), .scalar (3/2), none⟩]
  else if name = "1rect_1circle_7d" then some [
    ⟨"circle", (-2, 3), .scalar 1, none⟩,
    ⟨"rect", (3, 2), .twoD 2 2, none⟩]
  else if name = "2class_1" then some [
    ⟨"rect", (5, 0), .twoD 2 2, some 0⟩,
    ⟨"circle", (-3, 6), .scalar 1, some 1⟩,
    ⟨"rect", (-5, 2), .twoD 2 (3/2), some 1⟩,
    ⟨"circle", (-5, -2), .scalar (3/2), some 1⟩,
    ⟨"circle", (-3, -6), .scalar 1, some 1⟩]
  else if name = "2class_2" then some [
    ⟨"rect", (0, 3), .twoD 16 (1/2), some 1⟩,
    ⟨"rect", (0, -3), .twoD 16 (1/2), some 0⟩]
  else if name = "3circle_7d" then some [
    ⟨"circle", (-2, 2), .scalar 1, none⟩,
    ⟨"circle", (-3, 3), .scalar 1, none⟩,
    ⟨"circle", (-6, -3), .scalar 1, none⟩]
  else none

/-- The DOF-indexed link-length table `lengths = {2: 3.5, 3: 2, 7: 1}`
consulted on the catalog branch of `main`; lookup of an absent key is
`none` (a Python `KeyError`). -/
def lengths (dof : ℤ) : Option ℚ :=
  if dof = 2 then some (7/2)
  else if dof = 3 then some 2
  else if dof = 7 then some 1
  else none

/-- Model of the process-wide numpy random stream over a state type `σ`:
`seedFn` is `np.random.seed` (the state after seeding is a function of
the integer seed alone), and `rand2` is `np.random.rand(2,)` (a pair of
draws plus the advanced state). -/
structure Rng (σ : Type) where
  seedFn : ℤ → σ
  rand2 : σ → (ℚ × ℚ) × σ

/-- `numpy.random.rand` draws from the half-open unit interval `[0, 1)`;
this predicate records that contract of the (out-of-scope) library for
both components of every draw. -/
def Rng.unitRange {σ : Type} (R : Rng σ) : Prop :=
  ∀ s : σ, 0 ≤ ((R.rand2 s).1).1 ∧ ((R.rand2 s).1).1 < 1 ∧
    0 ≤ ((R.rand2 s).1).2 ∧ ((R.rand2 s).1).2 < 1

/-- One random-field loop of `main`: `n` iterations, each drawing
`pos = np.random.rand(2,) * (ub - lb) + lb` componentwise and appending
the obstacle `('rect', pos, (1, 1))`; returns the obstacle list in
append order together with the final stream state. -/
def genField {σ : Type} (R : Rng σ) (lb ub : ℚ × ℚ) :
    ℕ → σ → List Obstacle × σ
  | 0, s => ([], s)
  | n + 1, s =>
    let d := R.rand2 s
    let pos : ℚ × ℚ :=
      (d.1.1 * (ub.1 - lb.1) + lb.1, d.1.2 * (ub.2 - lb.2) + lb.2)
    let rest := genField R lb ub n d.2
    (⟨"rect", pos, .twoD 1 1, none⟩ :: rest.1, rest.2)

/-- The two failure conditions of `main`: an unknown scene identifier
(`KeyError` from `predefined_obstacles[env_name]`) and an unsupported
DOF (`KeyError` from `lengths[dof]`). -/
inductive MainError where
  | unknownScene
  | unsupportedDof
deriving DecidableEq, Repr

/-- The obstacle/link-length resolution portion of `main` (source lines
63-98): seed the stream from `random_seed` (discarding the prior state
`s0`), then dispatch on `env_name` — the two procedural identifiers
build random rectangle fields with fixed link lengths, every other
identifier goes through catalog and DOF-table lookup.  Returns the
resolved `(obstacles, link_length)` or the failure, with the final
stream state. -/
def resolveScenario {σ : Type} (R : Rng σ) (env_name : String)
    (dof : ℤ) (random_seed : ℤ) (s0 : σ) :
    Except MainError (List Obstacle × ℚ) × σ :=
  let s := R.seedFn random_seed
  if env_name = "7d_narrow" then
    let f1 := genField R (-8, 1) (8, 8) 150 s
    let f2 := genField R (-8, -8) (8, -1) 150 f1.2
    (.ok (f1.1 ++ f2.1, 1), f2.2)
  else if env_name = "3d_halfnarrow" then
    let f1 := genField R (-8, 1) (8, 8) 150 s
    (.ok (f1.1, 5/2), f1.2)
  else
    match predefined_obstacles env_name with
    | none => (.error .unknownScene, s)
    | some obstacles =>
      match lengths dof with
      | none => (.error .unsupportedDof, s)
      | some link_length => (.ok (obstacles, link_length), s)

/-- The external robot-model constructor's argument bundle:
`RevolutePlanarRobot(link_length, width, dof)`. -/
structure RevolutePlanarRobot where
  link_length : ℚ
  width : ℚ
  dof : ℤ
deriving DecidableEq, Repr

/-- The fully resolved argument bundle that `main` passes to the
external `generate_data_planar_manipulators` call. -/
structure GenRequest where
  robot : RevolutePlanarRobot
  folder : String
  obstacles : List Obstacle
  label_type : String
  num_class : ℤ
  num_points : ℤ
  env_id : String
  vis : Bool
deriving DecidableEq, Repr

/-- The whole of `main`: resolve the scenario, then (on success)
construct the robot model and the generation request exactly as the
source does on lines 100-103; a resolution failure propagates with no
request constructed. -/
def mainRun {σ : Type} (R : Rng σ) (env_name folder label_type : String)
    (num_class : ℤ) (dof : ℤ) (num_init_points : ℤ) (random_seed : ℤ)
    (width : ℚ) (s0 : σ) : Except MainError GenRequest × σ :=
  match resolveScenario R env_name dof random_seed s0 with
  | (.error e, s) => (.error e, s)
  | (.ok (obstacles, link_length), s) =>
    (.ok { robot := ⟨link_length, width, dof⟩
           folder := folder
           obstacles := obstacles
           label_type := label_type
           num_class := num_class
           num_points := num_init_points
           env_id := env_name
           vis := true }, s)

/-- The `choices` list of the `--env` CLI argument. -/
def env_choices : List String :=
  ["1rect_1circle", "3circle", "1rect_1circle_7d", "2class_1",
   "2class_2", "3circle_7d", "7d_narrow", "3d_halfnarrow"]

/-- The `choices` list of the `--dof` CLI argument. -/
def dof_choices : List ℤ := [2, 3, 7]

/-- Whether the argparse parser accepts an `(--env, --dof)` pair: both
must belong to their `choices` lists. -/
def parserAccepts (env_name : String) (dof : ℤ) : Bool :=
  env_choices.contains env_name && dof_choices.contains dof

/-- A concrete stream instance used to exercise the theorems: state is
trivial and every draw returns `(1/2, 1/2)`. -/
def constRng : Rng Unit where
  seedFn := fun _ => ()
  rand2 := fun _ => ((1/2, 1/2), ())

/-- A concrete stream instance whose state (a counter) distinguishes
prior histories, used to exercise the seeding-determinism theorem. -/
def natRng : Rng ℕ where
  seedFn := fun z => z.natAbs
  rand2 := fun n => ((1/2, 1/2), n + 1)

lemma constRng_unitRange : constRng.unitRange := by
  intro s
  refine ⟨?_, ?_, ?_, ?_⟩ <;> simp [constRng] <;> norm_num

lemma genField_length {σ : Type} (R : Rng σ) (lb ub : ℚ × ℚ) (n : ℕ)
    (s : σ) : (genField R lb ub n s).1.length = n := by
  induction n generalizing s with
  | zero => rfl
  | succ n ih => simp [genField, ih]

lemma genField_mem {σ : Type} (R : Rng σ) (hR : R.unitRange)
    (lb ub : ℚ × ℚ) (h1 : lb.1 < ub.1) (h2 : lb.2 < ub.2) (n : ℕ) (s : σ) :
    ∀ o ∈ (genField R lb ub n s).1,
      o.kind = "rect" ∧ o.size = .twoD 1 1 ∧ o.tag = none ∧
      lb.1 ≤ o.pos.1 ∧ o.pos.1 < ub.1 ∧ lb.2 ≤ o.pos.2 ∧ o.pos.2 < ub.2 := by
  induction n generalizing s with
  | zero => intro o ho; simp [genField] at ho
  | succ n ih =>
    intro o ho
    simp only [genField, List.mem_cons] at ho
    rcases ho with h | h
    · subst h
      obtain ⟨ha, hb, hc, hd⟩ := hR s
      refine ⟨rfl, rfl, rfl, ?_, ?_, ?_, ?_⟩ <;> dsimp only <;> nlinarith
    · exact ih _ o h

lemma resolveScenario_narrow {σ : Type} (R : Rng σ) (dof seed : ℤ)
    (s0 : σ) :
    resolveScenario R "7d_narrow" dof seed s0 =
      (.ok ((genField R (-8, 1) (8, 8) 150 (R.seedFn seed)).1 ++
        (genField R (-8, -8) (8, -1) 150
          (genField R (-8, 1) (8, 8) 150 (R.seedFn seed)).2).1, 1),
       (genField R (-8, -8) (8, -1) 150
          (genField R (-8, 1) (8, 8) 150 (R.seedFn seed)).2).2) := rfl

lemma resolveScenario_half {σ : Type} (R : Rng σ) (dof seed : ℤ)
    (s0 : σ) :
    resolveScenario R "3d_halfnarrow" dof seed s0 =
      (.ok ((genField R (-8, 1) (8, 8) 150 (R.seedFn seed)).1, 5/2),
       (genField R (-8, 1) (8, 8) 150 (R.seedFn seed)).2) := rfl

lemma resolveScenario_catalog {σ : Type} (R : Rng σ) (env : String)
    (dof seed : ℤ) (s0 : σ) (h1 : env ≠ "7d_narrow")
    (h2 : env ≠ "3d_halfnarrow") (obs : List Obstacle) (L : ℚ)
    (hc : predefined_obstacles env = some obs) (hL : lengths dof = some L) :
    resolveScenario R env dof seed s0 = (.ok (obs, L), R.seedFn seed) := by
  simp [resolveScenario, h1, h2, hc, hL]

lemma resolveScenario_unknown {σ : Type} (R : Rng σ) (env : String)
    (dof seed : ℤ) (s0 : σ) (h1 : env ≠ "7d_narrow")
    (h2 : env ≠ "3d_halfnarrow") (hc : predefined_obstacles env = none) :
    resolveScenario R env dof seed s0 =
      (.error .unknownScene, R.seedFn seed) := by
  simp [resolveScenario, h1, h2, hc]

lemma resolveScenario_baddof {σ : Type} (R : Rng σ) (env : String)
    (dof seed : ℤ) (s0 : σ) (h1 : env ≠ "7d_narrow")
    (h2 : env ≠ "3d_halfnarrow") (obs : List Obstacle)
    (hc : predefined_obstacles env = some obs) (hL : lengths dof = none) :
    resolveScenario R env dof seed s0 =
      (.error .unsupportedDof, R.seedFn seed) := by
  simp [resolveScenario, h1, h2, hc, hL]

lemma mainRun_of_resolve_ok {σ : Type} (R : Rng σ)
    (env folder lt : String) (nc dof nip seed : ℤ) (w : ℚ) (s0 : σ)
    (obs : List Obstacle) (L : ℚ) (s : σ)
    (h : resolveScenario R env dof seed s0 = (.ok (obs, L), s)) :
    mainRun R env folder lt nc dof nip seed w s0 =
      (.ok ⟨⟨L, w, dof⟩, folder, obs, lt, nc, nip, env, true⟩, s) := by
  simp [mainRun, h]

lemma mainRun_of_resolve_error {σ : Type} (R : Rng σ)
    (env folder lt : String) (nc dof nip seed : ℤ) (w : ℚ) (s0 : σ)
    (e : MainError) (s : σ)
    (h : resolveScenario R env dof seed s0 = (.error e, s)) :
    mainRun R env folder lt nc dof nip seed w s0 = (.error e, s) := by
  simp [mainRun, h]

lemma not_predefined_narrow :
    predefined_obstacles "7d_narrow" = none := rfl

lemma not_predefined_half :
    predefined_obstacles "3d_halfnarrow" = none := rfl

/-- C1: every fixed catalog identifier maps to exactly the literal
obstacle sequence of spec section 4.1, in order; in particular
"3circle" maps to circles at (0,4.5), (-2,-3), (-2,2) with radii
1, 2, 1.5. -/
theorem catalog_literal_entries :
    predefined_obstacles "1rect_1circle" = some [
      ⟨"rect", (4, 3), .twoD 2 2, none⟩,
      ⟨"circle", (-4, -3), .scalar 1, none⟩] ∧
    predefined_obstacles "3circle" = some [
      ⟨"circle", (0, 9/2), .scalar 1, none⟩,
      ⟨"circle", (-2, -3), .scalar 2, none⟩,
      ⟨"circle", (-2, 2), .scalar (3/2), none⟩] ∧
    predefined_obstacles "1rect_1circle_7d" = some [
      ⟨"circle", (-2, 3), .scalar 1, none⟩,
      ⟨"rect", (3, 2), .twoD 2 2, none⟩] ∧
    predefined_obstacles "2class_1" = some [
      ⟨"rect", (5, 0), .twoD 2 2, some 0⟩,
      ⟨"circle", (-3, 6), .scalar 1, some 1⟩,
      ⟨"rect", (-5, 2), .twoD 2 (3/2), some 1⟩,
      ⟨"circle", (-5, -2), .scalar (3/2), some 1⟩,
      ⟨"circle", (-3, -6), .scalar 1, some 1⟩] ∧
    predefined_obstacles "2class_2" = some [
      ⟨"rect", (0, 3), .twoD 16 (1/2), some 1⟩,
      ⟨"rect", (0, -3), .twoD 16 (1/2), some 0⟩] ∧
    predefined_obstacles "3circle_7d" = some [
      ⟨"circle", (-2, 2), .scalar 1, none⟩,
      ⟨"circle", (-3, 3), .scalar 1, none⟩,
      ⟨"circle", (-6, -3), .scalar 1, none⟩] := by
  refine ⟨?_, ?_, ?_, ?_, ?_, ?_⟩ <;> rfl

/-- C2: for scene "7d_narrow" the builder generates exactly 300
obstacles, all rectangles of size (1,1): 150 drawn from the region
x ∈ [-8,8], y ∈ [1,8] followed by 150 drawn from x ∈ [-8,8],
y ∈ [-8,-1]; every center satisfies x ∈ [-8,8] and
y ∈ [1,8] ∪ [-8,-1], and no center falls in the gap y ∈ (-1,1). -/
theorem narrow_field_bounds {σ : Type} (R : Rng σ) (hR : R.unitRange)
    (dof random_seed : ℤ) (s0 : σ) :
    ∃ up low s,
      resolveScenario R "7d_narrow" dof random_seed s0 =
        (.ok (up ++ low, 1), s) ∧
      (up ++ low).length = 300 ∧ up.length = 150 ∧ low.length = 150 ∧
      (∀ o ∈ up, -8 ≤ o.pos.1 ∧ o.pos.1 ≤ 8 ∧ 1 ≤ o.pos.2 ∧ o.pos.2 ≤ 8) ∧
      (∀ o ∈ low, -8 ≤ o.pos.1 ∧ o.pos.1 ≤ 8 ∧
        -8 ≤ o.pos.2 ∧ o.pos.2 ≤ -1) ∧
      (∀ o ∈ up ++ low, o.kind = "rect" ∧ o.size = .twoD 1 1 ∧
        -8 ≤ o.pos.1 ∧ o.pos.1 ≤ 8 ∧
        ((1 ≤ o.pos.2 ∧ o.pos.2 ≤ 8) ∨ (-8 ≤ o.pos.2 ∧ o.pos.2 ≤ -1)) ∧
        ¬(-1 < o.pos.2 ∧ o.pos.2 < 1)) := by
  set s1 := R.seedFn random_seed with hs1
  set f1 := genField R (-8, 1) (8, 8) 150 s1 with hf1
  set f2 := genField R (-8, -8) (8, -1) 150 f1.2 with hf2
  have hup := genField_mem R hR (-8, 1) (8, 8) (by norm_num) (by norm_num)
    150 s1
  have hlow := genField_mem R hR (-8, -8) (8, -1) (by norm_num)
    (by norm_num) 150 f1.2
  rw [← hf1] at hup
  rw [← hf2] at hlow
  dsimp only at hup hlow
  refine ⟨f1.1, f2.1, f2.2, resolveScenario_narrow R dof random_seed s0,
    ?_, ?_, ?_, ?_, ?_, ?_⟩
  · rw [List.length_append, hf1, hf2, genField_length, genField_length]
  · rw [hf1, genField_length]
  · rw [hf2, genField_length]
  · intro o ho
    obtain ⟨_, _, _, hx1, hx2, hy1, hy2⟩ := hup o ho
    exact ⟨hx1, le_of_lt hx2, hy1, le_of_lt hy2⟩
  · intro o ho
    obtain ⟨_, _, _, hx1, hx2, hy1, hy2⟩ := hlow o ho
    exact ⟨hx1, le_of_lt hx2, hy1, le_of_lt hy2⟩
  · intro o ho
    rcases List.mem_append.mp ho with h | h
    · obtain ⟨hk, hsz, _, hx1, hx2, hy1, hy2⟩ := hup o h
      refine ⟨hk, hsz, hx1, le_of_lt hx2, Or.inl ⟨hy1, le_of_lt hy2⟩, ?_⟩
      rintro ⟨_, hlt⟩
      exact absurd hy1 (by linarith)
    · obtain ⟨hk, hsz, _, hx1, hx2, hy1, hy2⟩ := hlow o h
      refine ⟨hk, hsz, hx1, le_of_lt hx2, Or.inr ⟨hy1, le_of_lt hy2⟩, ?_⟩
      rintro ⟨hgt, _⟩
      exact absurd (le_of_lt hy2) (by linarith)

/-- Witness for C2 at the concrete constant stream. -/
theorem narrow_field_bounds_witness :
    ∃ up low s,
      resolveScenario constRng "7d_narrow" 7 2021 () =
        (.ok (up ++ low, 1), s) ∧
      (up ++ low).length = 300 ∧ up.length = 150 ∧ low.length = 150 ∧
      (∀ o ∈ up, -8 ≤ o.pos.1 ∧ o.pos.1 ≤ 8 ∧ 1 ≤ o.pos.2 ∧ o.pos.2 ≤ 8) ∧
      (∀ o ∈ low, -8 ≤ o.pos.1 ∧ o.pos.1 ≤ 8 ∧
        -8 ≤ o.pos.2 ∧ o.pos.2 ≤ -1) ∧
      (∀ o ∈ up ++ low, o.kind = "rect" ∧ o.size = .twoD 1 1 ∧
        -8 ≤ o.pos.1 ∧ o.pos.1 ≤ 8 ∧
        ((1 ≤ o.pos.2 ∧ o.pos.2 ≤ 8) ∨ (-8 ≤ o.pos.2 ∧ o.pos.2 ≤ -1)) ∧
        ¬(-1 < o.pos.2 ∧ o.pos.2 < 1)) :=
  narrow_field_bounds constRng constRng_unitRange 7 2021 ()

/-- C3: the resolved obstacle field of the two random scenes is a
deterministic function of the seed: it does not depend on the stream
state prior to the call, because the builder seeds the process-wide
stream before any generation. -/
theorem seeded_determinism {σ : Type} (R : Rng σ) (env : String)
    (h : env = "7d_narrow" ∨ env = "3d_halfnarrow") (dof seed : ℤ)
    (s0 s1 : σ) :
    resolveScenario R env dof seed s0 =
      resolveScenario R env dof seed s1 := rfl

/-- Witness for C3: two runs from distinct prior states 0 and 5 of the
counter stream agree. -/
theorem seeded_determinism_witness :
    resolveScenario natRng "7d_narrow" 7 2021 0 =
      resolveScenario natRng "7d_narrow" 7 2021 5 :=
  seeded_determinism natRng "7d_narrow" (Or.inl rfl) 7 2021 0 5

/-- C4: link length resolution — the DOF table gives 3.5, 2, 1 for
DOF 2, 3, 7; scene "7d_narrow" always resolves link length 1 and
"3d_halfnarrow" always 2.5 regardless of the DOF argument; and a
catalog scene resolves the length looked up from the table. -/
theorem link_length_resolution {σ : Type} (R : Rng σ)
    (dof random_seed : ℤ) (s0 : σ) (env : String) (obs : List Obstacle)
    (L : ℚ) (h1 : env ≠ "7d_narrow") (h2 : env ≠ "3d_halfnarrow")
    (h3 : predefined_obstacles env = some obs)
    (h4 : lengths dof = some L) :
    lengths 2 = some (7/2) ∧ lengths 3 = some 2 ∧ lengths 7 = some 1 ∧
    (∃ obs1 s, resolveScenario R "7d_narrow" dof random_seed s0 =
      (.ok (obs1, 1), s)) ∧
    (∃ obs2 s, resolveScenario R "3d_halfnarrow" dof random_seed s0 =
      (.ok (obs2, 5/2), s)) ∧
    resolveScenario R env dof random_seed s0 =
      (.ok (obs, L), R.seedFn random_seed) := by
  refine ⟨rfl, rfl, rfl, ⟨_, _, resolveScenario_narrow R dof random_seed s0⟩,
    ⟨_, _, resolveScenario_half R dof random_seed s0⟩,
    resolveScenario_catalog R env dof random_seed s0 h1 h2 obs L h3 h4⟩

/-- Witness for C4 at env "3circle", DOF 2. -/
theorem link_length_resolution_witness :
    lengths 2 = some (7/2) ∧ lengths 3 = some 2 ∧ lengths 7 = some 1 ∧
    (∃ obs1 s, resolveScenario constRng "7d_narrow" 2 2021 () =
      (.ok (obs1, 1), s)) ∧
    (∃ obs2 s, resolveScenario constRng "3d_halfnarrow" 2 2021 () =
      (.ok (obs2, 5/2), s)) ∧
    resolveScenario constRng "3circle" 2 2021 () =
      (.ok ([⟨"circle", (0, 9/2), .scalar 1, none⟩,
             ⟨"circle", (-2, -3), .scalar 2, none⟩,
             ⟨"circle", (-2, 2), .scalar (3/2), none⟩], 7/2),
       constRng.seedFn 2021) :=
  link_length_resolution constRng 2 2021 () "3circle" _ (7/2)
    (by decide) (by decide) rfl rfl

/-- C5: for scene "3d_halfnarrow" the builder generates exactly 150
obstacles, all rectangles of size (1,1), with centers in x ∈ [-8,8],
y ∈ [1,8]; no center lies outside that band. -/
theorem halfnarrow_field_bounds {σ : Type} (R : Rng σ)
    (hR : R.unitRange) (dof random_seed : ℤ) (s0 : σ) :
    ∃ obs s,
      resolveScenario R "3d_halfnarrow" dof random_seed s0 =
        (.ok (obs, 5/2), s) ∧
      obs.length = 150 ∧
      ∀ o ∈ obs, o.kind = "rect" ∧ o.size = .twoD 1 1 ∧
        -8 ≤ o.pos.1 ∧ o.pos.1 ≤ 8 ∧ 1 ≤ o.pos.2 ∧ o.pos.2 ≤ 8 := by
  have hmem := genField_mem R hR (-8, 1) (8, 8) (by norm_num)
    (by norm_num) 150 (R.seedFn random_seed)
  dsimp only at hmem
  refine ⟨_, _, resolveScenario_half R dof random_seed s0,
    genField_length R (-8, 1) (8, 8) 150 (R.seedFn random_seed), ?_⟩
  intro o ho
  obtain ⟨hk, hsz, _, hx1, hx2, hy1, hy2⟩ := hmem o ho
  exact ⟨hk, hsz, hx1, le_of_lt hx2, hy1, le_of_lt hy2⟩

/-- Witness for C5 at the concrete constant stream. -/
theorem halfnarrow_field_bounds_witness :
    ∃ obs s,
      resolveScenario constRng "3d_halfnarrow" 3 2021 () =
        (.ok (obs, 5/2), s) ∧
      obs.length = 150 ∧
      ∀ o ∈ obs, o.kind = "rect" ∧ o.size = .twoD 1 1 ∧
        -8 ≤ o.pos.1 ∧ o.pos.1 ≤ 8 ∧ 1 ≤ o.pos.2 ∧ o.pos.2 ≤ 8 :=
  halfnarrow_field_bounds constRng constRng_unitRange 3 2021 ()

/-- C6: requesting a catalog scene with a DOF outside the set 2, 3, 7
fails with the unsupported-DOF condition: `main` returns the error and
constructs no generation request (so neither the robot model nor the
external generator is reached). -/
theorem catalog_bad_dof {σ : Type} (R : Rng σ) (env folder lt : String)
    (nc dof nip seed : ℤ) (w : ℚ) (s0 : σ) (obs : List Obstacle)
    (hcat : predefined_obstacles env = some obs)
    (hd2 : dof ≠ 2) (hd3 : dof ≠ 3) (hd7 : dof ≠ 7) :
    mainRun R env folder lt nc dof nip seed w s0 =
      (.error .unsupportedDof, R.seedFn seed) := by
  have h1 : env ≠ "7d_narrow" := by
    rintro rfl
    rw [not_predefined_narrow] at hcat
    exact Option.noConfusion hcat
  have h2 : env ≠ "3d_halfnarrow" := by
    rintro rfl
    rw [not_predefined_half] at hcat
    exact Option.noConfusion hcat
  have hL : lengths dof = none := by
    simp [lengths, hd2, hd3, hd7]
  exact mainRun_of_resolve_error R env folder lt nc dof nip seed w s0
    _ _ (resolveScenario_baddof R env dof seed s0 h1 h2 obs hcat hL)

/-- Witness for C6: scene "3circle" with DOF 5. -/
theorem catalog_bad_dof_witness :
    mainRun constRng "3circle" "data/landscape" "binary" 2 5 8000 2021
      (3/10) () = (.error .unsupportedDof, constRng.seedFn 2021) :=
  catalog_bad_dof constRng "3circle" "data/landscape" "binary" 2 5 8000
    2021 (3/10) () _ rfl (by decide) (by decide) (by decide)

/-- C7: requesting a scene identifier absent from the catalog and
distinct from the two procedural identifiers fails with the
unknown-scene condition raised by the catalog lookup; the failure
propagates (no request is constructed). -/
theorem unknown_scene_fails {σ : Type} (R : Rng σ)
    (env folder lt : String) (nc dof nip seed : ℤ) (w : ℚ) (s0 : σ)
    (h1 : env ≠ "7d_narrow") (h2 : env ≠ "3d_halfnarrow")
    (hcat : predefined_obstacles env = none) :
    mainRun R env folder lt nc dof nip seed w s0 =
      (.error .unknownScene, R.seedFn seed) :=
  mainRun_of_resolve_error R env folder lt nc dof nip seed w s0 _ _
    (resolveScenario_unknown R env dof seed s0 h1 h2 hcat)

/-- Witness for C7: scene "nonexistent". -/
theorem unknown_scene_fails_witness :
    mainRun constRng "nonexistent" "data/landscape" "binary" 2 3 8000
      2021 (3/10) () = (.error .unknownScene, constRng.seedFn 2021) :=
  unknown_scene_fails constRng "nonexistent" "data/landscape" "binary"
    2 3 8000 2021 (3/10) () (by decide) (by decide) rfl

/-- C8: whenever resolution succeeds, `main` passes the resolved
obstacle sequence to the external generation call unchanged and in the
same order (the request's obstacle field is exactly the resolved list),
together with the other parameters as resolved. -/
theorem obstacles_passed_unchanged {σ : Type} (R : Rng σ)
    (env folder lt : String) (nc dof nip seed : ℤ) (w : ℚ) (s0 : σ)
    (obs : List Obstacle) (L : ℚ) (s : σ)
    (h : resolveScenario R env dof seed s0 = (.ok (obs, L), s)) :
    ∃ req, mainRun R env folder lt nc dof nip seed w s0 =
      (.ok req, s) ∧ req.obstacles = obs ∧ req.env_id = env ∧
      req.robot = ⟨L, w, dof⟩ :=
  ⟨_, mainRun_of_resolve_ok R env folder lt nc dof nip seed w s0
    obs L s h, rfl, rfl, rfl⟩

/-- Witness for C8 at scene "3circle". -/
theorem obstacles_passed_unchanged_witness :
    ∃ req, mainRun constRng "3circle" "data/landscape" "binary" 2 3
      8000 2021 (3/10) () = (.ok req, ()) ∧
      req.obstacles = [⟨"circle", (0, 9/2), .scalar 1, none⟩,
        ⟨"circle", (-2, -3), .scalar 2, none⟩,
        ⟨"circle", (-2, 2), .scalar (3/2), none⟩] ∧
      req.env_id = "3circle" ∧ req.robot = ⟨2, 3/10, 3⟩ :=
  obstacles_passed_unchanged constRng "3circle" "data/landscape"
    "binary" 2 3 8000 2021 (3/10) () _ 2 () rfl

/-- C9: for the two random scene identifiers the builder never raises
the unsupported-DOF condition for any integer DOF: the length table is
consulted only on the catalog branch, and the DOF argument is forwarded
unchecked into the robot-model bundle. -/
theorem random_scene_no_dof_check {σ : Type} (R : Rng σ)
    (env folder lt : String) (nc dof nip seed : ℤ) (w : ℚ) (s0 : σ)
    (h : env = "7d_narrow" ∨ env = "3d_halfnarrow") :
    ∃ req s, mainRun R env folder lt nc dof nip seed w s0 =
      (.ok req, s) ∧ req.robot.dof = dof := by
  rcases h with rfl | rfl
  · exact ⟨_, _, mainRun_of_resolve_ok R _ folder lt nc dof nip seed w
      s0 _ _ _ (resolveScenario_narrow R dof seed s0), rfl⟩
  · exact ⟨_, _, mainRun_of_resolve_ok R _ folder lt nc dof nip seed w
      s0 _ _ _ (resolveScenario_half R dof seed s0), rfl⟩

/-- Witness for C9: scene "7d_narrow" with DOF 5 passes this layer. -/
theorem random_scene_no_dof_check_witness :
    ∃ req s, mainRun constRng "7d_narrow" "data/landscape" "binary" 2 5
      8000 2021 (3/10) () = (.ok req, s) ∧ req.robot.dof = 5 :=
  random_scene_no_dof_check constRng "7d_narrow" "data/landscape"
    "binary" 2 5 8000 2021 (3/10) () (Or.inl rfl)

set_option maxRecDepth 8192 in
/-- C10: every argument pair accepted by the CLI parser (env among the
eight enumerated identifiers, DOF among 2, 3, 7) takes a defined branch
in the builder: `main` produces a generation request and neither
failure condition occurs. -/
theorem cli_accepted_defined {σ : Type} (R : Rng σ) (env : String)
    (dof : ℤ) (folder lt : String) (nc nip seed : ℤ) (w : ℚ) (s0 : σ)
    (h : parserAccepts env dof = true) :
    ∃ req s, mainRun R env folder lt nc dof nip seed w s0 =
      (.ok req, s) := by
  simp [parserAccepts, env_choices, dof_choices] at h
  obtain ⟨henv, hdof⟩ := h
  have hL : ∃ L, lengths dof = some L := by
    rcases hdof with rfl | rfl | rfl <;> exact ⟨_, rfl⟩
  obtain ⟨L, hL⟩ := hL
  rcases henv with rfl | rfl | rfl | rfl | rfl | rfl | rfl | rfl
  all_goals first
    | exact ⟨_, _, mainRun_of_resolve_ok R _ folder lt nc dof nip seed
        w s0 _ _ _ (resolveScenario_narrow R dof seed s0)⟩
    | exact ⟨_, _, mainRun_of_resolve_ok R _ folder lt nc dof nip seed
        w s0 _ _ _ (resolveScenario_half R dof seed s0)⟩
    | exact ⟨_, _, mainRun_of_resolve_ok R _ folder lt nc dof nip seed
        w s0 _ L _ (resolveScenario_catalog R _ dof seed s0
          (by decide) (by decide) _ L rfl hL)⟩

/-- Witness for C10: env "2class_2" with DOF 7 is parser-accepted and
yields a request. -/
theorem cli_accepted_defined_witness :
    ∃ req s, mainRun constRng "2class_2" "data/landscape" "binary" 2 7
      8000 2021 (3/10) () = (.ok req, s) :=
  cli_accepted_defined constRng "2class_2" 7 "data/landscape" "binary"
    2 8000 2021 (3/10) () (by decide)
